import Mathlib

/-! Verification of the Gotcha OSINT username/breach hunting engine:
shallow embedding of the probe classification, dispatch, session and
breach-report logic, with theorems checking the specification's claims. -/

/-- Case-sensitive list-of-chars test: is `needle` a prefix of `hay`?
Building block for Python's `in` substring operator. -/
def charsPrefixOf : List Char → List Char → Bool
  | [], _ => true
  | _ :: _, [] => false
  | a :: as, b :: bs => a == b && charsPrefixOf as bs

/-- Is `needle` a contiguous infix of `hay`? Models Python's `needle in hay`
substring containment on strings. -/
def charsInfixOf (needle : List Char) : List Char → Bool
  | [] => charsPrefixOf needle []
  | c :: rest => charsPrefixOf needle (c :: rest) || charsInfixOf needle rest

/-- Python's `needle in hay` for strings (substring containment). -/
def pyIn (needle hay : String) : Bool := charsInfixOf needle.data hay.data

/-- Python's `str.lower()`, restricted to ASCII case mapping (every indicator
string in the catalogs is ASCII, so the restriction is without loss here). -/
def pyLower (s : String) : String := ⟨s.data.map Char.toLower⟩

/-- One platform record of the catalogs in `social_media.py` and
`username_hunter.py`: the dict with keys `url`, `check_url`, `indicators`,
`not_found_indicators`. -/
structure PlatformData where
  url : String
  check_url : String
  indicators : List String
  not_found_indicators : List String
deriving Repr, DecidableEq

/-- A probe result draws its fields from the result dicts built by
`check_username_on_platform` in both engines; keys that some branches omit
are `Option` (`none` models an absent key). -/
structure ProbeResult where
  platform : String
  username : String
  url : String
  exists' : Bool
  status_code : Option Nat
  response_time : Option Nat
  additional_info : Option (List (String × String))
  error : Option String
deriving Repr, DecidableEq

/-- Helper for Python's `template.format(arg)`: replace the first `\x7b\x7d`
placeholder in the character list by the argument. Every catalog URL template
contains exactly one placeholder, so replacing the first is `str.format`. -/
def pyFormat1 (arg : String) : List Char → List Char
  | [] => []
  | '\x7b' :: '\x7d' :: rest => arg.data ++ rest
  | c :: rest => c :: pyFormat1 arg rest

/-- Python's `template.format(arg)` for the catalog URL templates. -/
def pyFormat (template arg : String) : String := ⟨pyFormat1 arg template.data⟩

/-- Outcome of the transport layer for one probe: the `session.get` /
`response.text()` pair either yields an HTTP status with a body text,
raises `asyncio.TimeoutError`, or raises some other exception carrying a
description (DNS failure, connection refused, TLS error, ...). -/
inductive FetchOutcome where
  | success (status : Nat) (body : String)
  | timeout
  | failure (message : String)
deriving Repr, DecidableEq

/-- The indicator scan both engines run on a 200 body:
`any(indicator.lower() in content.lower() for indicator in indicators)`. -/
def indicatorHit (indicators : List String) (content : String) : Bool :=
  indicators.any fun indicator => pyIn (pyLower indicator) (pyLower content)

/-- A probe step packages the result dict together with a record of whether
`await response.text()` was executed on this code path (both engines fetch
the body on line 261 / line 332 before looking at the status code). -/
structure ProbeStep where
  result : ProbeResult
  textAwaited : Bool
deriving Repr, DecidableEq

/-- `SocialMediaHunter.extract_additional_info` (social_media.py lines
313-331): every platform branch is `pass`, so the returned dict is always
empty. -/
def SocialMediaHunter.extract_additional_info (_content _platform : String) :
    List (String × String) := []

/-- Shallow embedding of `SocialMediaHunter.check_username_on_platform`
(social_media.py lines 246-311). The network is abstracted by `outcome`.
On a successful fetch the body is read, the result dict is built with
`exists=False`, and only the 200 branch can flip `exists` to `True` (the
404 branch re-assigns `False`, a no-op, folded into the `else`). The
`asyncio.TimeoutError` handler returns `status_code=0, error='Timeout'`;
the generic handler returns `status_code=0, error=str(e)`. -/
def SocialMediaHunter.check_username_on_platform (username platform : String)
    (platform_data : PlatformData) (outcome : FetchOutcome) : ProbeStep :=
  match outcome with
  | FetchOutcome.success status content =>
      let base : ProbeResult :=
        { platform := platform, username := username
          url := pyFormat platform_data.url username
          exists' := false, status_code := some status
          response_time := some 0, additional_info := some []
          error := none }
      let result :=
        if status = 200 then
          let positive_indicators := indicatorHit platform_data.indicators content
          let negative_indicators := indicatorHit platform_data.not_found_indicators content
          if positive_indicators && !negative_indicators then
            { base with exists' := true
                        additional_info :=
                          some (SocialMediaHunter.extract_additional_info content platform) }
          else base
        else base
      { result := result, textAwaited := true }
  | FetchOutcome.timeout =>
      { result :=
          { platform := platform, username := username
            url := pyFormat platform_data.url username
            exists' := false, status_code := some 0
            response_time := none, additional_info := none
            error := some "Timeout" }
        textAwaited := false }
  | FetchOutcome.failure message =>
      { result :=
          { platform := platform, username := username
            url := pyFormat platform_data.url username
            exists' := false, status_code := some 0
            response_time := none, additional_info := none
            error := some message }
        textAwaited := false }

/-- Python's `str(e)` for the exception caught by the generic
`except Exception as e` handler in `UsernameHunter.check_username_on_platform`:
a bare `asyncio.TimeoutError()` is raised with no arguments, so its string
rendering is the empty string; other transport failures render their
description. -/
def exceptionStr : FetchOutcome → String
  | FetchOutcome.timeout => ""
  | FetchOutcome.failure message => message
  | FetchOutcome.success _ _ => ""

/-- Shallow embedding of `UsernameHunter.check_username_on_platform`
(username_hunter.py lines 317-366). Unlike the social-media engine this
version has no `except asyncio.TimeoutError` clause: every exception,
timeouts included, lands in the single `except Exception as e` handler whose
result dict has no `status_code` key and `error = str(e)`. -/
def UsernameHunter.check_username_on_platform (username platform : String)
    (platform_data : PlatformData) (outcome : FetchOutcome) : ProbeStep :=
  match outcome with
  | FetchOutcome.success status content =>
      let base : ProbeResult :=
        { platform := platform, username := username
          url := pyFormat platform_data.url username
          exists' := false, status_code := some status
          response_time := none, additional_info := some []
          error := none }
      let result :=
        if status = 200 then
          let positive_indicators := indicatorHit platform_data.indicators content
          let negative_indicators := indicatorHit platform_data.not_found_indicators content
          if positive_indicators && !negative_indicators then
            { base with exists' := true }
          else base
        else base
      { result := result, textAwaited := true }
  | FetchOutcome.timeout =>
      { result :=
          { platform := platform, username := username
            url := pyFormat platform_data.url username
            exists' := false, status_code := none
            response_time := none, additional_info := none
            error := some (exceptionStr FetchOutcome.timeout) }
        textAwaited := false }
  | FetchOutcome.failure message =>
      { result :=
          { platform := platform, username := username
            url := pyFormat platform_data.url username
            exists' := false, status_code := none
            response_time := none, additional_info := none
            error := some (exceptionStr (FetchOutcome.failure message)) }
        textAwaited := false }

/-- Shallow embedding of `UsernameHunter.hunt_platforms` (username_hunter.py
lines 368-392): one probe per platform in the dict (`asyncio.gather` with
`return_exceptions=True`; the probe itself catches every exception, so every
gathered item is a result dict), then the loop keeps only results whose
`exists` flag is true. `env` supplies the transport outcome per platform. -/
def UsernameHunter.hunt_platforms (username : String)
    (platforms : List (String × PlatformData)) (env : String → FetchOutcome) :
    List ProbeResult :=
  let results := platforms.map fun p =>
    (UsernameHunter.check_username_on_platform username p.1 p.2 (env p.1)).result
  results.filter fun result => result.exists'

/-- The `general_sites` catalog from `UsernameHunter.__init__`
(username_hunter.py lines 21-143), in dict insertion order. -/
def UsernameHunter.general_sites : List (String × PlatformData) := [
  ("pastebin",
    { url := "https://pastebin.com/u/\x7b\x7d"
      check_url := "https://pastebin.com/u/\x7b\x7d"
      indicators := ["pastebin", "Public Pastes", "Profile"]
      not_found_indicators := ["Unknown User", "Not Found"] }),
  ("about_me",
    { url := "https://about.me/\x7b\x7d"
      check_url := "https://about.me/\x7b\x7d"
      indicators := ["about.me", "profile"]
      not_found_indicators := ["Page not found"] }),
  ("gravatar",
    { url := "https://gravatar.com/\x7b\x7d"
      check_url := "https://gravatar.com/\x7b\x7d"
      indicators := ["Gravatar", "avatar"]
      not_found_indicators := ["Page not found"] }),
  ("keybase",
    { url := "https://keybase.io/\x7b\x7d"
      check_url := "https://keybase.io/\x7b\x7d"
      indicators := ["Keybase", "proofs", "keys"]
      not_found_indicators := ["User not found"] }),
  ("hackernews",
    { url := "https://news.ycombinator.com/user?id=\x7b\x7d"
      check_url := "https://news.ycombinator.com/user?id=\x7b\x7d"
      indicators := ["Hacker News", "karma", "submissions"]
      not_found_indicators := ["No such user"] }),
  ("product_hunt",
    { url := "https://producthunt.com/@\x7b\x7d"
      check_url := "https://producthunt.com/@\x7b\x7d"
      indicators := ["Product Hunt", "followers", "following"]
      not_found_indicators := ["Page not found"] }),
  ("angel_list",
    { url := "https://angel.co/\x7b\x7d"
      check_url := "https://angel.co/\x7b\x7d"
      indicators := ["AngelList", "angel.co"]
      not_found_indicators := ["Page not found"] }),
  ("foursquare",
    { url := "https://foursquare.com/\x7b\x7d"
      check_url := "https://foursquare.com/\x7b\x7d"
      indicators := ["Foursquare", "check-ins"]
      not_found_indicators := ["Page not found"] }),
  ("last_fm",
    { url := "https://last.fm/user/\x7b\x7d"
      check_url := "https://last.fm/user/\x7b\x7d"
      indicators := ["Last.fm", "scrobbles", "artists"]
      not_found_indicators := ["User not found"] }),
  ("mix_cloud",
    { url := "https://mixcloud.com/\x7b\x7d"
      check_url := "https://mixcloud.com/\x7b\x7d"
      indicators := ["Mixcloud", "cloudcasts", "followers"]
      not_found_indicators := ["Page not found"] }),
  ("adultfriendfinder",
    { url := "https://adultfriendfinder.com/profile/\x7b\x7d"
      check_url := "https://adultfriendfinder.com/profile/\x7b\x7d"
      indicators := ["AdultFriendFinder", "profile"]
      not_found_indicators := ["Profile not found", "User not found"] }),
  ("ashley_madison",
    { url := "https://ashleymadison.com/profile/\x7b\x7d"
      check_url := "https://ashleymadison.com/profile/\x7b\x7d"
      indicators := ["Ashley Madison", "profile"]
      not_found_indicators := ["Profile not found"] }),
  ("seeking",
    { url := "https://seeking.com/member/\x7b\x7d"
      check_url := "https://seeking.com/member/\x7b\x7d"
      indicators := ["Seeking", "profile"]
      not_found_indicators := ["Profile not found"] }),
  ("alt_com",
    { url := "https://alt.com/profile/\x7b\x7d"
      check_url := "https://alt.com/profile/\x7b\x7d"
      indicators := ["Alt.com", "profile"]
      not_found_indicators := ["Profile not found"] }),
  ("swappernet",
    { url := "https://swappernet.com/\x7b\x7d"
      check_url := "https://swappernet.com/\x7b\x7d"
      indicators := ["SwapperNet", "profile"]
      not_found_indicators := ["Profile not found"] }),
  ("faphouse",
    { url := "https://faphouse.com/models/\x7b\x7d"
      check_url := "https://faphouse.com/models/\x7b\x7d"
      indicators := ["FapHouse", "model", "videos"]
      not_found_indicators := ["Model not found"] }),
  ("manyvids",
    { url := "https://manyvids.com/Profile/\x7b\x7d/Store/Videos/"
      check_url := "https://manyvids.com/Profile/\x7b\x7d/Store/Videos/"
      indicators := ["ManyVids", "profile", "videos"]
      not_found_indicators := ["Profile not found"] }),
  ("clips4sale",
    { url := "https://clips4sale.com/studio/\x7b\x7d"
      check_url := "https://clips4sale.com/studio/\x7b\x7d"
      indicators := ["Clips4Sale", "studio"]
      not_found_indicators := ["Studio not found"] }),
  ("iwantclips",
    { url := "https://iwantclips.com/store/\x7b\x7d"
      check_url := "https://iwantclips.com/store/\x7b\x7d"
      indicators := ["iWantClips", "store"]
      not_found_indicators := ["Store not found"] }),
  ("justforfans",
    { url := "https://justfor.fans/\x7b\x7d"
      check_url := "https://justfor.fans/\x7b\x7d"
      indicators := ["JustForFans", "profile"]
      not_found_indicators := ["Profile not found"] })]

/-- The `developer_platforms` catalog from `UsernameHunter.__init__`
(username_hunter.py lines 146-219). -/
def UsernameHunter.developer_platforms : List (String × PlatformData) := [
  ("github",
    { url := "https://github.com/\x7b\x7d"
      check_url := "https://github.com/\x7b\x7d"
      indicators := ["GitHub", "repositories", "followers"]
      not_found_indicators := ["Not Found"] }),
  ("gitlab",
    { url := "https://gitlab.com/\x7b\x7d"
      check_url := "https://gitlab.com/\x7b\x7d"
      indicators := ["GitLab", "projects", "contributions"]
      not_found_indicators := ["Page not found"] }),
  ("bitbucket",
    { url := "https://bitbucket.org/\x7b\x7d"
      check_url := "https://bitbucket.org/\x7b\x7d"
      indicators := ["Bitbucket", "repositories"]
      not_found_indicators := ["Page not found"] }),
  ("stackoverflow",
    { url := "https://stackoverflow.com/users/\x7b\x7d"
      check_url := "https://stackoverflow.com/users/\x7b\x7d"
      indicators := ["Stack Overflow", "reputation", "answers"]
      not_found_indicators := ["User not found"] }),
  ("codepen",
    { url := "https://codepen.io/\x7b\x7d"
      check_url := "https://codepen.io/\x7b\x7d"
      indicators := ["CodePen", "pens", "followers"]
      not_found_indicators := ["Page not found"] }),
  ("replit",
    { url := "https://replit.com/@\x7b\x7d"
      check_url := "https://replit.com/@\x7b\x7d"
      indicators := ["Replit", "repls"]
      not_found_indicators := ["Page not found"] }),
  ("hackerone",
    { url := "https://hackerone.com/\x7b\x7d"
      check_url := "https://hackerone.com/\x7b\x7d"
      indicators := ["HackerOne", "reputation", "reports"]
      not_found_indicators := ["Page not found"] }),
  ("bugcrowd",
    { url := "https://bugcrowd.com/\x7b\x7d"
      check_url := "https://bugcrowd.com/\x7b\x7d"
      indicators := ["Bugcrowd", "researcher"]
      not_found_indicators := ["Page not found"] }),
  ("kaggle",
    { url := "https://kaggle.com/\x7b\x7d"
      check_url := "https://kaggle.com/\x7b\x7d"
      indicators := ["Kaggle", "competitions", "datasets"]
      not_found_indicators := ["Page not found"] }),
  ("dockerhub",
    { url := "https://hub.docker.com/u/\x7b\x7d"
      check_url := "https://hub.docker.com/u/\x7b\x7d"
      indicators := ["Docker Hub", "repositories"]
      not_found_indicators := ["Page not found"] }),
  ("npm",
    { url := "https://npmjs.com/~\x7b\x7d"
      check_url := "https://npmjs.com/~\x7b\x7d"
      indicators := ["npm", "packages"]
      not_found_indicators := ["Page not found"] }),
  ("pypi",
    { url := "https://pypi.org/user/\x7b\x7d"
      check_url := "https://pypi.org/user/\x7b\x7d"
      indicators := ["PyPI", "packages"]
      not_found_indicators := ["Page not found"] })]

/-- The `forums` catalog from `UsernameHunter.__init__`
(username_hunter.py lines 222-247). -/
def UsernameHunter.forums : List (String × PlatformData) := [
  ("reddit",
    { url := "https://reddit.com/user/\x7b\x7d"
      check_url := "https://reddit.com/user/\x7b\x7d"
      indicators := ["Reddit", "karma", "posts"]
      not_found_indicators := ["page not found"] }),
  ("xda",
    { url := "https://forum.xda-developers.com/member.php?username=\x7b\x7d"
      check_url := "https://forum.xda-developers.com/member.php?username=\x7b\x7d"
      indicators := ["XDA", "posts", "thanks"]
      not_found_indicators := ["User not found"] }),
  ("disqus",
    { url := "https://disqus.com/by/\x7b\x7d"
      check_url := "https://disqus.com/by/\x7b\x7d"
      indicators := ["Disqus", "comments"]
      not_found_indicators := ["Page not found"] }),
  ("discourse",
    { url := "https://meta.discourse.org/u/\x7b\x7d"
      check_url := "https://meta.discourse.org/u/\x7b\x7d"
      indicators := ["Discourse", "posts", "topics"]
      not_found_indicators := ["Page not found"] })]

/-- The `gaming_platforms` catalog from `UsernameHunter.__init__`
(username_hunter.py lines 250-293). -/
def UsernameHunter.gaming_platforms : List (String × PlatformData) := [
  ("steam",
    { url := "https://steamcommunity.com/id/\x7b\x7d"
      check_url := "https://steamcommunity.com/id/\x7b\x7d"
      indicators := ["Steam", "games", "profile"]
      not_found_indicators := ["The specified profile could not be found"] }),
  ("xbox",
    { url := "https://xboxgamertag.com/search/\x7b\x7d"
      check_url := "https://xboxgamertag.com/search/\x7b\x7d"
      indicators := ["Xbox", "gamertag"]
      not_found_indicators := ["Gamertag not found"] }),
  ("playstation",
    { url := "https://psnprofiles.com/\x7b\x7d"
      check_url := "https://psnprofiles.com/\x7b\x7d"
      indicators := ["PSN", "trophies", "games"]
      not_found_indicators := ["User not found"] }),
  ("epic",
    { url := "https://fortnitetracker.com/profile/all/\x7b\x7d"
      check_url := "https://fortnitetracker.com/profile/all/\x7b\x7d"
      indicators := ["Epic", "stats"]
      not_found_indicators := ["Player not found"] }),
  ("battlenet",
    { url := "https://playoverwatch.com/en-us/career/pc/\x7b\x7d"
      check_url := "https://playoverwatch.com/en-us/career/pc/\x7b\x7d"
      indicators := ["Overwatch", "career"]
      not_found_indicators := ["Profile not found"] }),
  ("minecraft",
    { url := "https://namemc.com/profile/\x7b\x7d"
      check_url := "https://namemc.com/profile/\x7b\x7d"
      indicators := ["Minecraft", "UUID"]
      not_found_indicators := ["Profile not found"] }),
  ("roblox",
    { url := "https://roblox.com/users/profile?username=\x7b\x7d"
      check_url := "https://roblox.com/users/profile?username=\x7b\x7d"
      indicators := ["Roblox", "profile"]
      not_found_indicators := ["User not found"] })]

/-- The hardcoded `adult_platforms` name list inside
`UsernameHunter.hunt_general_sites` (username_hunter.py lines 400-401). -/
def UsernameHunter.adult_platforms : List String :=
  ["adultfriendfinder", "ashley_madison", "seeking", "alt_com",
   "swappernet", "faphouse", "manyvids", "clips4sale", "iwantclips", "justforfans"]

/-- The `platforms_to_check` dict built by the loop in
`UsernameHunter.hunt_general_sites` (lines 399-406): an entry of
`general_sites` is skipped exactly when its key is in `adult_platforms` and
`include_adult` is false. -/
def UsernameHunter.general_platforms_to_check (include_adult : Bool) :
    List (String × PlatformData) :=
  UsernameHunter.general_sites.filter fun p =>
    !(UsernameHunter.adult_platforms.contains p.1 && !include_adult)

/-- `UsernameHunter.hunt_general_sites` (username_hunter.py lines 394-408). -/
def UsernameHunter.hunt_general_sites (username : String) (include_adult : Bool)
    (env : String → FetchOutcome) : List ProbeResult :=
  UsernameHunter.hunt_platforms username
    (UsernameHunter.general_platforms_to_check include_adult) env

/-- `UsernameHunter.hunt_developer_platforms` (lines 410-413). -/
def UsernameHunter.hunt_developer_platforms (username : String)
    (env : String → FetchOutcome) : List ProbeResult :=
  UsernameHunter.hunt_platforms username UsernameHunter.developer_platforms env

/-- `UsernameHunter.hunt_forums` (lines 415-418). -/
def UsernameHunter.hunt_forums (username : String)
    (env : String → FetchOutcome) : List ProbeResult :=
  UsernameHunter.hunt_platforms username UsernameHunter.forums env

/-- `UsernameHunter.hunt_gaming_platforms` (lines 420-423). -/
def UsernameHunter.hunt_gaming_platforms (username : String)
    (env : String → FetchOutcome) : List ProbeResult :=
  UsernameHunter.hunt_platforms username UsernameHunter.gaming_platforms env

/-- The adult-only dict built inside `UsernameHunter.hunt_adult_platforms`
(lines 430-441) by indexing `general_sites` at the ten adult keys; the keys
all exist in the catalog, so the lookups succeed. -/
def UsernameHunter.adult_subset : List (String × PlatformData) :=
  UsernameHunter.adult_platforms.filterMap fun name =>
    (UsernameHunter.general_sites.lookup name).map fun pd => (name, pd)

/-- `UsernameHunter.hunt_adult_platforms` (lines 425-443). -/
def UsernameHunter.hunt_adult_platforms (username : String)
    (env : String → FetchOutcome) : List ProbeResult :=
  UsernameHunter.hunt_platforms username UsernameHunter.adult_subset env

/-- Shallow embedding of `UsernameHunter.hunt_all_platforms`
(username_hunter.py lines 445-462): a dict with the four fixed category keys
in insertion order, plus `adult_platforms` when `include_adult` is set. -/
def UsernameHunter.hunt_all_platforms (username : String) (include_adult : Bool)
    (env : String → FetchOutcome) : List (String × List ProbeResult) :=
  let results := [
    ("general_sites", UsernameHunter.hunt_general_sites username include_adult env),
    ("developer_platforms", UsernameHunter.hunt_developer_platforms username env),
    ("forums", UsernameHunter.hunt_forums username env),
    ("gaming_platforms", UsernameHunter.hunt_gaming_platforms username env)]
  if include_adult then
    results ++ [("adult_platforms", UsernameHunter.hunt_adult_platforms username env)]
  else
    results

/-- The `platforms` catalog from `SocialMediaHunter.__init__`
(social_media.py lines 22-222), in dict insertion order; apostrophes in the
source strings are written with the `\x27` escape. -/
def SocialMediaHunter.platforms : List (String × PlatformData) := [
  ("twitter",
    { url := "https://twitter.com/\x7b\x7d"
      check_url := "https://twitter.com/\x7b\x7d"
      indicators := ["Profile", "Joined", "Following", "Followers"]
      not_found_indicators := ["This account doesn\x27t exist", "Account suspended"] }),
  ("instagram",
    { url := "https://instagram.com/\x7b\x7d"
      check_url := "https://instagram.com/\x7b\x7d"
      indicators := ["followers", "following", "posts"]
      not_found_indicators := ["Sorry, this page isn\x27t available"] }),
  ("facebook",
    { url := "https://facebook.com/\x7b\x7d"
      check_url := "https://facebook.com/\x7b\x7d"
      indicators := ["Facebook"]
      not_found_indicators := ["This content isn\x27t available"] }),
  ("linkedin",
    { url := "https://linkedin.com/in/\x7b\x7d"
      check_url := "https://linkedin.com/in/\x7b\x7d"
      indicators := ["LinkedIn", "connections", "Experience"]
      not_found_indicators := ["This profile doesn\x27t exist"] }),
  ("github",
    { url := "https://github.com/\x7b\x7d"
      check_url := "https://github.com/\x7b\x7d"
      indicators := ["repositories", "followers", "following"]
      not_found_indicators := ["Not Found"] }),
  ("youtube",
    { url := "https://youtube.com/@\x7b\x7d"
      check_url := "https://youtube.com/@\x7b\x7d"
      indicators := ["subscribers", "videos", "YouTube"]
      not_found_indicators := ["This channel doesn\x27t exist"] }),
  ("tiktok",
    { url := "https://tiktok.com/@\x7b\x7d"
      check_url := "https://tiktok.com/@\x7b\x7d"
      indicators := ["Following", "Followers", "Likes"]
      not_found_indicators := ["Couldn\x27t find this account"] }),
  ("reddit",
    { url := "https://reddit.com/user/\x7b\x7d"
      check_url := "https://reddit.com/user/\x7b\x7d"
      indicators := ["Post Karma", "Comment Karma"]
      not_found_indicators := ["page not found"] }),
  ("pinterest",
    { url := "https://pinterest.com/\x7b\x7d"
      check_url := "https://pinterest.com/\x7b\x7d"
      indicators := ["Pinterest", "pins", "boards"]
      not_found_indicators := ["Sorry, we couldn\x27t find that page"] }),
  ("snapchat",
    { url := "https://snapchat.com/add/\x7b\x7d"
      check_url := "https://snapchat.com/add/\x7b\x7d"
      indicators := ["Snapchat"]
      not_found_indicators := ["Oh snap! Something went wrong"] }),
  ("discord",
    { url := "https://discord.com/users/\x7b\x7d"
      check_url := "https://discord.com/users/\x7b\x7d"
      indicators := ["Discord"]
      not_found_indicators := ["User not found"] }),
  ("twitch",
    { url := "https://twitch.tv/\x7b\x7d"
      check_url := "https://twitch.tv/\x7b\x7d"
      indicators := ["Twitch", "followers", "following"]
      not_found_indicators := ["Sorry. Unless you\x27ve got a time machine"] }),
  ("spotify",
    { url := "https://open.spotify.com/user/\x7b\x7d"
      check_url := "https://open.spotify.com/user/\x7b\x7d"
      indicators := ["Spotify", "playlists"]
      not_found_indicators := ["Page not found"] }),
  ("medium",
    { url := "https://medium.com/@\x7b\x7d"
      check_url := "https://medium.com/@\x7b\x7d"
      indicators := ["Medium", "followers", "following"]
      not_found_indicators := ["Page not found"] }),
  ("devto",
    { url := "https://dev.to/\x7b\x7d"
      check_url := "https://dev.to/\x7b\x7d"
      indicators := ["DEV Community", "posts", "followers"]
      not_found_indicators := ["404"] }),
  ("behance",
    { url := "https://behance.net/\x7b\x7d"
      check_url := "https://behance.net/\x7b\x7d"
      indicators := ["Behance", "projects", "followers"]
      not_found_indicators := ["Page Not Found"] }),
  ("dribbble",
    { url := "https://dribbble.com/\x7b\x7d"
      check_url := "https://dribbble.com/\x7b\x7d"
      indicators := ["Dribbble", "shots", "followers"]
      not_found_indicators := ["Page not found"] }),
  ("vimeo",
    { url := "https://vimeo.com/\x7b\x7d"
      check_url := "https://vimeo.com/\x7b\x7d"
      indicators := ["Vimeo", "videos", "followers"]
      not_found_indicators := ["Page not found"] }),
  ("soundcloud",
    { url := "https://soundcloud.com/\x7b\x7d"
      check_url := "https://soundcloud.com/\x7b\x7d"
      indicators := ["SoundCloud", "followers", "following"]
      not_found_indicators := ["We can\x27t find that user"] }),
  ("tumblr",
    { url := "https://\x7b\x7d.tumblr.com"
      check_url := "https://\x7b\x7d.tumblr.com"
      indicators := ["Tumblr"]
      not_found_indicators := ["There\x27s nothing here"] }),
  ("flickr",
    { url := "https://flickr.com/people/\x7b\x7d"
      check_url := "https://flickr.com/people/\x7b\x7d"
      indicators := ["Flickr", "photos"]
      not_found_indicators := ["Page not found"] }),
  ("pornhub",
    { url := "https://pornhub.com/users/\x7b\x7d"
      check_url := "https://pornhub.com/users/\x7b\x7d"
      indicators := ["profile", "videos", "subscribers"]
      not_found_indicators := ["User not found", "Page not found"] }),
  ("xvideos",
    { url := "https://xvideos.com/profiles/\x7b\x7d"
      check_url := "https://xvideos.com/profiles/\x7b\x7d"
      indicators := ["profile", "videos"]
      not_found_indicators := ["User not found", "Profile not found"] }),
  ("redtube",
    { url := "https://redtube.com/users/\x7b\x7d"
      check_url := "https://redtube.com/users/\x7b\x7d"
      indicators := ["profile", "videos"]
      not_found_indicators := ["User not found"] }),
  ("onlyfans",
    { url := "https://onlyfans.com/\x7b\x7d"
      check_url := "https://onlyfans.com/\x7b\x7d"
      indicators := ["OnlyFans", "profile"]
      not_found_indicators := ["User not found", "Page not found"] }),
  ("chaturbate",
    { url := "https://chaturbate.com/\x7b\x7d"
      check_url := "https://chaturbate.com/\x7b\x7d"
      indicators := ["chaturbate", "profile"]
      not_found_indicators := ["User not found"] }),
  ("cam4",
    { url := "https://cam4.com/\x7b\x7d"
      check_url := "https://cam4.com/\x7b\x7d"
      indicators := ["cam4", "profile"]
      not_found_indicators := ["User not found"] }),
  ("myfreecams",
    { url := "https://profiles.myfreecams.com/\x7b\x7d"
      check_url := "https://profiles.myfreecams.com/\x7b\x7d"
      indicators := ["MyFreeCams", "profile"]
      not_found_indicators := ["Profile not found"] }),
  ("stripchat",
    { url := "https://stripchat.com/\x7b\x7d"
      check_url := "https://stripchat.com/\x7b\x7d"
      indicators := ["stripchat", "profile"]
      not_found_indicators := ["User not found"] }),
  ("livejasmin",
    { url := "https://livejasmin.com/en/girl/\x7b\x7d"
      check_url := "https://livejasmin.com/en/girl/\x7b\x7d"
      indicators := ["LiveJasmin", "profile"]
      not_found_indicators := ["Profile not found"] }),
  ("bongacams",
    { url := "https://bongacams.com/\x7b\x7d"
      check_url := "https://bongacams.com/\x7b\x7d"
      indicators := ["BongaCams", "profile"]
      not_found_indicators := ["User not found"] }),
  ("camsoda",
    { url := "https://camsoda.com/\x7b\x7d"
      check_url := "https://camsoda.com/\x7b\x7d"
      indicators := ["CamSoda", "profile"]
      not_found_indicators := ["User not found"] }),
  ("fetlife",
    { url := "https://fetlife.com/users/\x7b\x7d"
      check_url := "https://fetlife.com/users/\x7b\x7d"
      indicators := ["FetLife", "profile", "kinks"]
      not_found_indicators := ["User not found"] })]

/-- The hardcoded `adult_platforms` name list inside
`SocialMediaHunter.hunt_username` (social_media.py lines 343-345). -/
def SocialMediaHunter.adult_platforms : List String :=
  ["pornhub", "xvideos", "redtube", "onlyfans", "chaturbate",
   "cam4", "myfreecams", "stripchat", "livejasmin", "bongacams",
   "camsoda", "fetlife"]

/-- The `platforms_to_check` dict built by the loop in
`SocialMediaHunter.hunt_username` (lines 347-350): an entry of `platforms`
is skipped exactly when its key is adult and `include_adult` is false. -/
def SocialMediaHunter.platforms_to_check (include_adult : Bool) :
    List (String × PlatformData) :=
  SocialMediaHunter.platforms.filter fun p =>
    !(SocialMediaHunter.adult_platforms.contains p.1 && !include_adult)

/-- Shallow embedding of `SocialMediaHunter.hunt_username` (social_media.py
lines 333-374): one probe task per selected platform, gathered with
`return_exceptions=True` (the probe never raises), then filtered to the
results whose `exists` flag is true. -/
def SocialMediaHunter.hunt_username (username : String) (include_adult : Bool)
    (env : String → FetchOutcome) : List ProbeResult :=
  let results := (SocialMediaHunter.platforms_to_check include_adult).map fun p =>
    (SocialMediaHunter.check_username_on_platform username p.1 p.2 (env p.1)).result
  results.filter fun result => result.exists'

/-- The session-relevant state of a hunter instance: `session` is
`self.session` (`none` models Python's `None`); `opened` counts the
`aiohttp.ClientSession` objects created so far and doubles as the id the
next created session will get, so distinct ids are distinct session
objects. -/
structure SessionState where
  session : Option Nat
  opened : Nat
deriving Repr, DecidableEq

/-- `UsernameHunter.__init__` sets `self.session = None`. -/
def UsernameHunter.initState : SessionState := { session := none, opened := 0 }

/-- `UsernameHunter.create_session` (username_hunter.py lines 295-309):
builds a fresh `aiohttp.ClientSession` and stores it in `self.session`. -/
def UsernameHunter.create_session (st : SessionState) : SessionState :=
  { session := some st.opened, opened := st.opened + 1 }

/-- `UsernameHunter.close_session` (lines 311-315): closes and clears
`self.session` when one is open; a no-op otherwise. -/
def UsernameHunter.close_session (st : SessionState) : SessionState :=
  { st with session := none }

/-- The session discipline of `UsernameHunter.hunt_platforms` (lines
368-392): `create_session` runs when `self.session` is `None`, the probes
all use the stored session, and the `finally` block always closes it.
Returns the id of the session the probes used, with the post state. -/
def UsernameHunter.hunt_platforms_session (st : SessionState) :
    Nat × SessionState :=
  let st1 := if st.session.isNone then UsernameHunter.create_session st else st
  let sid := st1.session.getD 0
  (sid, UsernameHunter.close_session st1)

/-- The session discipline of `UsernameHunter.hunt_all_platforms` (lines
445-462): the category hunts run sequentially, each delegating to
`hunt_platforms`; with `include_adult` a fifth category hunt follows.
Returns the session ids used by the successive category hunts. -/
def UsernameHunter.hunt_all_platforms_session (include_adult : Bool)
    (st : SessionState) : List Nat × SessionState :=
  let r1 := UsernameHunter.hunt_platforms_session st
  let r2 := UsernameHunter.hunt_platforms_session r1.2
  let r3 := UsernameHunter.hunt_platforms_session r2.2
  let r4 := UsernameHunter.hunt_platforms_session r3.2
  if include_adult then
    let r5 := UsernameHunter.hunt_platforms_session r4.2
    ([r1.1, r2.1, r3.1, r4.1, r5.1], r5.2)
  else
    ([r1.1, r2.1, r3.1, r4.1], r4.2)

/-- One breach-source record as built by the `check_*` methods of
`BreachChecker`; keys absent from some dicts are `Option` fields. -/
structure BreachRecord where
  source : String
  email : String
  found : Bool
  breaches : Option (List String)
  url : Option String
  note : Option String
deriving Repr, DecidableEq

/-- Shallow embedding of `BreachChecker.check_haveibeenpwned`
(breach_checker.py lines 81-114): fetch the account page; on HTTP 200 whose
body contains one of `pwned`, `breach`, `found` (the body is lowercased,
the indicators are already lowercase) return a record with `found=True`;
otherwise, and on any exception, fall through to `return None`. -/
def BreachChecker.check_haveibeenpwned (email : String)
    (outcome : FetchOutcome) : Option BreachRecord :=
  match outcome with
  | FetchOutcome.success status content =>
      if status = 200 then
        if ["pwned", "breach", "found"].any (fun indicator => pyIn indicator (pyLower content)) then
          some { source := "Have I Been Pwned", email := email, found := true
                 breaches := some []
                 url := some ("https://haveibeenpwned.com/account/" ++ email)
                 note := some "Manual verification required - automated checking requires API key" }
        else none
      else none
  | _ => none

/-- Shallow embedding of `BreachChecker.check_breachdirectory` (lines
116-147): the body only builds literal dicts and unconditionally returns the
placeholder record, whose `found` field is `False`; no statement before the
`return` can raise, so the `except` path is dead. -/
def BreachChecker.check_breachdirectory (email : String) : Option BreachRecord :=
  some { source := "Breach Directory", email := email, found := false
         breaches := none, url := none
         note := some "Manual check required at https://breachdirectory.org/" }

/-- `BreachChecker.check_local_breach_files` (lines 149-174): placeholder,
always returns the empty list. -/
def BreachChecker.check_local_breach_files (_email : String) : List BreachRecord := []

/-- `BreachChecker.check_pastebins` (lines 176-198): placeholder, always
returns the empty list. -/
def BreachChecker.check_pastebins (_email : String) : List BreachRecord := []

/-- `BreachChecker.check_social_media_breaches` (lines 200-236): placeholder,
always returns the empty list. -/
def BreachChecker.check_social_media_breaches (_email : String) : List BreachRecord := []

/-- The report dict built by `BreachChecker.generate_breach_report`. -/
structure BreachReport where
  email : String
  total_breaches_found : Nat
  breach_sources : List String
  risk_level : String
  recommendations : List String
  last_checked : Option String
deriving Repr, DecidableEq

/-- Shallow embedding of `BreachChecker.generate_breach_report`
(breach_checker.py lines 238-273): `total_breaches_found = len(results)`;
when `results` is truthy (non-empty) the sources, the risk level ladder
(>=5 High, >=2 Medium, >=1 Low, else Clean) and the recommendation list are
filled in. -/
def BreachChecker.generate_breach_report (email : String)
    (results : List BreachRecord) : BreachReport :=
  let breach_report : BreachReport :=
    { email := email, total_breaches_found := results.length
      breach_sources := [], risk_level := "Unknown"
      recommendations := [], last_checked := none }
  if results.length ≠ 0 then
    { breach_report with
      breach_sources := results.map fun result => result.source
      risk_level :=
        if 5 ≤ results.length then "High"
        else if 2 ≤ results.length then "Medium"
        else if 1 ≤ results.length then "Low"
        else "Clean"
      recommendations := [
        "Change passwords for all accounts associated with this email",
        "Enable two-factor authentication where possible",
        "Monitor accounts for suspicious activity",
        "Consider using a password manager",
        "Check credit reports for unauthorized accounts"] }
  else breach_report

/-- Shallow embedding of `BreachChecker.check_breaches` (breach_checker.py
lines 275-316): the two source checks run in order and a returned record is
appended when truthy (both possible records are non-empty dicts, hence
truthy); the three placeholder checks extend the list with their empty
results; the report is generated from the accumulated list. -/
def BreachChecker.check_breaches (email : String)
    (hibp_outcome : FetchOutcome) : BreachReport :=
  let results : List BreachRecord :=
    (match BreachChecker.check_haveibeenpwned email hibp_outcome with
     | some result => [result]
     | none => [])
    ++ (match BreachChecker.check_breachdirectory email with
     | some result => [result]
     | none => [])
    ++ BreachChecker.check_local_breach_files email
    ++ BreachChecker.check_pastebins email
    ++ BreachChecker.check_social_media_breaches email
  BreachChecker.generate_breach_report email results

/-- The probe definition of the specification's concrete scenario (section
8): positive indicator `profile`, negative indicator `not found`, one
placeholder in the URL template. -/
def scenarioPlatform : PlatformData :=
  { url := "https://x.test/\x7b\x7d", check_url := "https://x.test/\x7b\x7d"
    indicators := ["profile"], not_found_indicators := ["not found"] }

/-- Helper: the `platform` field of a probe result is always the platform
name the probe was called with, on every branch of both engines. -/
theorem check_platform_UH (u p : String) (pd : PlatformData) (o : FetchOutcome) :
    (UsernameHunter.check_username_on_platform u p pd o).result.platform = p := by
  cases o <;> first
    | rfl
    | (simp only [UsernameHunter.check_username_on_platform]; split_ifs <;> rfl)

/-- Helper: the `platform` field of a social-media probe result is always
the platform name the probe was called with. -/
theorem check_platform_SM (u p : String) (pd : PlatformData) (o : FetchOutcome) :
    (SocialMediaHunter.check_username_on_platform u p pd o).result.platform = p := by
  cases o <;> first
    | rfl
    | (simp only [SocialMediaHunter.check_username_on_platform]; split_ifs <;> rfl)

/-- Helper: a username-hunter result marked existing comes from the success
branch, which leaves the `error` key unset. -/
theorem check_exists_error_none_UH (u p : String) (pd : PlatformData) (o : FetchOutcome)
    (h : (UsernameHunter.check_username_on_platform u p pd o).result.exists' = true) :
    (UsernameHunter.check_username_on_platform u p pd o).result.error = none := by
  cases o <;> simp_all [UsernameHunter.check_username_on_platform]
  split_ifs <;> rfl

/-- Helper: a social-media result marked existing comes from the success
branch, which leaves the `error` key unset. -/
theorem check_exists_error_none_SM (u p : String) (pd : PlatformData) (o : FetchOutcome)
    (h : (SocialMediaHunter.check_username_on_platform u p pd o).result.exists' = true) :
    (SocialMediaHunter.check_username_on_platform u p pd o).result.error = none := by
  cases o <;> simp_all [SocialMediaHunter.check_username_on_platform]
  split_ifs <;> rfl

/-- C1 (counterexample): the claim that a batch with K transport errors
still returns N results, the failed probes carrying an error status, is
false at a concrete input. One platform is probed and its probe raises a
connection error; the probe converts the error into a result record with
`exists=False`, but `hunt_platforms` filters the batch to results whose
`exists` flag is true, so the returned sequence is empty — 0 results, not
N = 1 and no error-status entry. -/
theorem C1_counterexample_error_result_dropped :
    UsernameHunter.hunt_platforms "alice"
      [("github",
        { url := "https://github.com/\x7b\x7d", check_url := "https://github.com/\x7b\x7d"
          indicators := ["GitHub"], not_found_indicators := ["Not Found"] })]
      (fun _ => FetchOutcome.failure "Connection refused") = [] := rfl

/-- C1 (amended): no exception escapes a hunt — every probe, failed or not,
is converted into a result record, and one record per platform is produced
internally — but the hunt returns only the records whose `exists` flag is
true; probes that raised transport errors are filtered out of the returned
sequence instead of appearing with an error status. Every returned record
has `exists=True` and no `error` key, in both engines. -/
theorem C1_hunt_returns_only_found (username : String) (include_adult : Bool)
    (platforms : List (String × PlatformData)) (env : String → FetchOutcome) :
    ((platforms.map fun p =>
        (UsernameHunter.check_username_on_platform username p.1 p.2 (env p.1)).result).length
      = platforms.length) ∧
    (∀ r ∈ UsernameHunter.hunt_platforms username platforms env,
        r.exists' = true ∧ r.error = none) ∧
    (∀ r ∈ SocialMediaHunter.hunt_username username include_adult env,
        r.exists' = true ∧ r.error = none) := by
  refine ⟨by simp, ?_, ?_⟩
  · intro r hr
    unfold UsernameHunter.hunt_platforms at hr
    simp only [List.mem_filter, List.mem_map] at hr
    obtain ⟨⟨p, hp, rfl⟩, hex⟩ := hr
    exact ⟨hex, check_exists_error_none_UH _ _ _ _ hex⟩
  · intro r hr
    unfold SocialMediaHunter.hunt_username at hr
    simp only [List.mem_filter, List.mem_map] at hr
    obtain ⟨⟨p, hp, rfl⟩, hex⟩ := hr
    exact ⟨hex, check_exists_error_none_SM _ _ _ _ hex⟩

/-- C1 (witness): the amended theorem applied at a concrete hunt in which
the single probe succeeds positively; the returned record is checked to be
a member of the output and to satisfy the guarantees. -/
theorem C1_hunt_returns_only_found_witness :
    ({ platform := "x", username := "alice", url := "https://x.test/alice"
       exists' := true, status_code := some 200, response_time := none
       additional_info := some [], error := none } : ProbeResult).exists' = true ∧
    ({ platform := "x", username := "alice", url := "https://x.test/alice"
       exists' := true, status_code := some 200, response_time := none
       additional_info := some [], error := none } : ProbeResult).error = none :=
  (C1_hunt_returns_only_found "alice" false [("x", scenarioPlatform)]
      (fun _ => FetchOutcome.success 200 "the profile page")).2.1
    { platform := "x", username := "alice", url := "https://x.test/alice"
      exists' := true, status_code := some 200, response_time := none
      additional_info := some [], error := none }
    (by decide)

/-- C2: on an HTTP 200 response, both engines mark the result as existing
iff some positive indicator occurs case-insensitively in the body and no
negative indicator does; in particular a simultaneous positive and negative
match yields a non-existing result. -/
theorem C2_found_iff_positive_and_not_negative
    (username platform : String) (platform_data : PlatformData) (body : String) :
    ((SocialMediaHunter.check_username_on_platform username platform platform_data
        (FetchOutcome.success 200 body)).result.exists' = true ↔
      (indicatorHit platform_data.indicators body = true ∧
       indicatorHit platform_data.not_found_indicators body = false)) ∧
    ((UsernameHunter.check_username_on_platform username platform platform_data
        (FetchOutcome.success 200 body)).result.exists' = true ↔
      (indicatorHit platform_data.indicators body = true ∧
       indicatorHit platform_data.not_found_indicators body = false)) := by
  constructor <;>
  · simp only [SocialMediaHunter.check_username_on_platform,
      UsernameHunter.check_username_on_platform, if_pos rfl]
    by_cases hp : indicatorHit platform_data.indicators body <;>
      by_cases hn : indicatorHit platform_data.not_found_indicators body <;>
      simp [hp, hn]

/-- C2 (witness): the classification applied at the specification's
concrete scenario; a found result forces the indicator facts. -/
theorem C2_found_iff_witness :
    indicatorHit ["profile"] "testuser123 profile page" = true ∧
    indicatorHit ["not found"] "testuser123 profile page" = false :=
  (C2_found_iff_positive_and_not_negative "testuser123" "xtest" scenarioPlatform
      "testuser123 profile page").1.mp (by decide)

/-- C3: in both engines a result marked existing is produced only from an
HTTP 200 response whose body matched at least one positive indicator and no
negative indicator, and such a result records status code 200; a found
result never occurs with a status code other than 200 (timeouts and
transport errors always yield `exists=False`). -/
theorem C3_found_implies_200_and_indicators
    (username platform : String) (platform_data : PlatformData) (outcome : FetchOutcome) :
    ((SocialMediaHunter.check_username_on_platform username platform platform_data
        outcome).result.exists' = true →
      ∃ body, outcome = FetchOutcome.success 200 body ∧
        (SocialMediaHunter.check_username_on_platform username platform platform_data
          outcome).result.status_code = some 200 ∧
        indicatorHit platform_data.indicators body = true ∧
        indicatorHit platform_data.not_found_indicators body = false) ∧
    ((UsernameHunter.check_username_on_platform username platform platform_data
        outcome).result.exists' = true →
      ∃ body, outcome = FetchOutcome.success 200 body ∧
        (UsernameHunter.check_username_on_platform username platform platform_data
          outcome).result.status_code = some 200 ∧
        indicatorHit platform_data.indicators body = true ∧
        indicatorHit platform_data.not_found_indicators body = false) := by
  constructor <;>
  · intro h
    cases outcome with
    | timeout =>
        simp [SocialMediaHunter.check_username_on_platform,
          UsernameHunter.check_username_on_platform] at h
    | failure message =>
        simp [SocialMediaHunter.check_username_on_platform,
          UsernameHunter.check_username_on_platform] at h
    | success status body =>
        refine ⟨body, ?_⟩
        by_cases h200 : status = 200
        · subst h200
          by_cases hp : indicatorHit platform_data.indicators body <;>
            by_cases hn : indicatorHit platform_data.not_found_indicators body <;>
            simp_all [SocialMediaHunter.check_username_on_platform,
              UsernameHunter.check_username_on_platform]
        · simp [SocialMediaHunter.check_username_on_platform,
            UsernameHunter.check_username_on_platform, h200] at h

/-- C3 (witness): the invariant applied at the specification's concrete
scenario, whose probe is found; the hypothesis is discharged by
evaluation. -/
theorem C3_found_implies_200_witness :
    ∃ body, (FetchOutcome.success 200 "testuser123 profile page" : FetchOutcome)
        = FetchOutcome.success 200 body ∧
      (SocialMediaHunter.check_username_on_platform "testuser123" "xtest" scenarioPlatform
        (FetchOutcome.success 200 "testuser123 profile page")).result.status_code = some 200 ∧
      indicatorHit ["profile"] body = true ∧
      indicatorHit ["not found"] body = false :=
  (C3_found_implies_200_and_indicators "testuser123" "xtest" scenarioPlatform
      (FetchOutcome.success 200 "testuser123 profile page")).1 (by decide)

/-- C4: with `include_adult=false` no adult platform is dispatched or
reported, in either engine: the adult names are removed from the
`platforms_to_check` dict before any probe task is created, and
consequently no returned result carries an adult platform name, for any
identifier and any transport behaviour. -/
theorem C4_no_adult_when_not_requested (username : String) (env : String → FetchOutcome) :
    (∀ p ∈ UsernameHunter.general_platforms_to_check false,
        UsernameHunter.adult_platforms.contains p.1 = false) ∧
    (∀ r ∈ UsernameHunter.hunt_general_sites username false env,
        UsernameHunter.adult_platforms.contains r.platform = false) ∧
    (∀ p ∈ SocialMediaHunter.platforms_to_check false,
        SocialMediaHunter.adult_platforms.contains p.1 = false) ∧
    (∀ r ∈ SocialMediaHunter.hunt_username username false env,
        SocialMediaHunter.adult_platforms.contains r.platform = false) := by
  have huh : ∀ p ∈ UsernameHunter.general_platforms_to_check false,
      UsernameHunter.adult_platforms.contains p.1 = false := by
    intro p hp
    unfold UsernameHunter.general_platforms_to_check at hp
    simp only [List.mem_filter, Bool.not_eq_true', Bool.and_eq_false_iff] at hp
    rcases hp.2 with h | h
    · exact h
    · simp at h
  have hsm : ∀ p ∈ SocialMediaHunter.platforms_to_check false,
      SocialMediaHunter.adult_platforms.contains p.1 = false := by
    intro p hp
    unfold SocialMediaHunter.platforms_to_check at hp
    simp only [List.mem_filter, Bool.not_eq_true', Bool.and_eq_false_iff] at hp
    rcases hp.2 with h | h
    · exact h
    · simp at h
  refine ⟨huh, ?_, hsm, ?_⟩
  · intro r hr
    unfold UsernameHunter.hunt_general_sites UsernameHunter.hunt_platforms at hr
    simp only [List.mem_filter, List.mem_map] at hr
    obtain ⟨⟨p, hp, rfl⟩, _⟩ := hr
    rw [check_platform_UH]
    exact huh p hp
  · intro r hr
    unfold SocialMediaHunter.hunt_username at hr
    simp only [List.mem_filter, List.mem_map] at hr
    obtain ⟨⟨p, hp, rfl⟩, _⟩ := hr
    rw [check_platform_SM]
    exact hsm p hp

/-- C4 (witness): the dispatch-set guarantee applied to the concrete
`pastebin` entry of the general catalog, which survives the adult filter
and is not an adult platform. -/
theorem C4_no_adult_witness :
    UsernameHunter.adult_platforms.contains "pastebin" = false :=
  (C4_no_adult_when_not_requested "alice" (fun _ => FetchOutcome.timeout)).1
    ("pastebin",
      { url := "https://pastebin.com/u/\x7b\x7d"
        check_url := "https://pastebin.com/u/\x7b\x7d"
        indicators := ["pastebin", "Public Pastes", "Profile"]
        not_found_indicators := ["Unknown User", "Not Found"] })
    (by decide)

/-- C5 (counterexample): the claim that on an HTTP 404 the response body is
never fetched is false — `await response.text()` runs before any status
check in both engines, so at this concrete 404 probe the body has been
fetched (`textAwaited = true`). -/
theorem C5_counterexample_body_fetched_on_404 :
    (SocialMediaHunter.check_username_on_platform "alice" "twitter"
      { url := "https://twitter.com/\x7b\x7d", check_url := "https://twitter.com/\x7b\x7d"
        indicators := ["Profile"], not_found_indicators := ["Account suspended"] }
      (FetchOutcome.success 404 "some 404 page body")).textAwaited = true := rfl

/-- C5 (amended): on an HTTP 404 the result is not-existing and the
classification is decided by the status code alone — the result record is
identical for every body — although the body is fetched (the unconditional
`await response.text()`) before the status code is examined. Holds in both
engines. -/
theorem C5_404_not_found_body_ignored (username platform : String)
    (platform_data : PlatformData) (body other_body : String) :
    ((SocialMediaHunter.check_username_on_platform username platform platform_data
        (FetchOutcome.success 404 body)).result.exists' = false ∧
     (SocialMediaHunter.check_username_on_platform username platform platform_data
        (FetchOutcome.success 404 body)).result =
       (SocialMediaHunter.check_username_on_platform username platform platform_data
        (FetchOutcome.success 404 other_body)).result) ∧
    ((UsernameHunter.check_username_on_platform username platform platform_data
        (FetchOutcome.success 404 body)).result.exists' = false ∧
     (UsernameHunter.check_username_on_platform username platform platform_data
        (FetchOutcome.success 404 body)).result =
       (UsernameHunter.check_username_on_platform username platform platform_data
        (FetchOutcome.success 404 other_body)).result) := by
  refine ⟨⟨?_, ?_⟩, ?_, ?_⟩ <;>
    simp [SocialMediaHunter.check_username_on_platform,
      UsernameHunter.check_username_on_platform]

/-- C6 (counterexample): the claim that every timed-out probe reports
`errorDetail = "Timeout"` is false for the username-hunter engine: its only
handler is the generic `except Exception as e`, whose result carries
`error = str(e)` — the empty string for a bare `asyncio.TimeoutError` — at
this concrete probe. -/
theorem C6_counterexample_uh_timeout_detail :
    (UsernameHunter.check_username_on_platform "alice" "github"
      { url := "https://github.com/\x7b\x7d", check_url := "https://github.com/\x7b\x7d"
        indicators := ["GitHub"], not_found_indicators := ["Not Found"] }
      FetchOutcome.timeout).result.error ≠ some "Timeout" := by decide

/-- C6 (amended): a timeout is always caught inside the probe and converted
to a result value in both engines; in `SocialMediaHunter` the dedicated
handler yields `error = "Timeout"`, `exists = False`, `status_code = 0`,
while in `UsernameHunter` the generic handler yields `error = str(e)` (the
empty string for a bare timeout) and no `status_code` key. -/
theorem C6_timeout_caught_per_engine (username platform : String)
    (platform_data : PlatformData) :
    ((SocialMediaHunter.check_username_on_platform username platform platform_data
        FetchOutcome.timeout).result.error = some "Timeout" ∧
     (SocialMediaHunter.check_username_on_platform username platform platform_data
        FetchOutcome.timeout).result.exists' = false ∧
     (SocialMediaHunter.check_username_on_platform username platform platform_data
        FetchOutcome.timeout).result.status_code = some 0) ∧
    ((UsernameHunter.check_username_on_platform username platform platform_data
        FetchOutcome.timeout).result.error = some "" ∧
     (UsernameHunter.check_username_on_platform username platform platform_data
        FetchOutcome.timeout).result.exists' = false ∧
     (UsernameHunter.check_username_on_platform username platform platform_data
        FetchOutcome.timeout).result.status_code = none) :=
  ⟨⟨rfl, rfl, rfl⟩, rfl, rfl, rfl⟩

/-- C7 (counterexample): the claim that exactly one session instance serves
an entire `hunt_all_platforms` call is false: from a fresh hunter with
`include_adult=false`, the four category hunts open four distinct sessions
(ids 0,1,2,3) because `hunt_platforms` closes the session in its `finally`
block and the next category hunt re-creates it. -/
theorem C7_counterexample_four_sessions :
    (UsernameHunter.hunt_all_platforms_session false UsernameHunter.initState).1
      = [0, 1, 2, 3] ∧
    (UsernameHunter.hunt_all_platforms_session false UsernameHunter.initState).2.opened = 4 ∧
    (UsernameHunter.hunt_all_platforms_session false UsernameHunter.initState).2.opened ≠ 1 := by
  decide

/-- C7 (amended): each category hunt inside `hunt_all_platforms` opens its
own session and closes it before the next begins: starting from any state
with no open session, the successive category hunts use pairwise distinct
session ids (four of them, five with `include_adult`), the hunter ends with
no open session, and a subsequent independent `hunt_all_platforms`
invocation uses session ids disjoint from the first — no session instance
is ever reused across category hunts or across independent hunts. -/
theorem C7_one_session_per_category_hunt (st : SessionState)
    (h : st.session = none) (include_adult other_adult : Bool) :
    ((UsernameHunter.hunt_all_platforms_session include_adult st).1 =
      (if include_adult then
        [st.opened, st.opened + 1, st.opened + 2, st.opened + 3, st.opened + 4]
       else [st.opened, st.opened + 1, st.opened + 2, st.opened + 3])) ∧
    (UsernameHunter.hunt_all_platforms_session include_adult st).1.Nodup ∧
    (UsernameHunter.hunt_all_platforms_session include_adult st).2.session = none ∧
    ((UsernameHunter.hunt_all_platforms_session include_adult st).1.Disjoint
      (UsernameHunter.hunt_all_platforms_session other_adult
        (UsernameHunter.hunt_all_platforms_session include_adult st).2).1) := by
  cases include_adult <;> cases other_adult <;>
    simp_all [UsernameHunter.hunt_all_platforms_session,
      UsernameHunter.hunt_platforms_session, UsernameHunter.create_session,
      UsernameHunter.close_session, List.Disjoint] <;>
    omega

/-- C7 (witness): the amended session discipline evaluated on a fresh
hunter, twice in a row. -/
theorem C7_one_session_per_category_hunt_witness :
    ((UsernameHunter.hunt_all_platforms_session false UsernameHunter.initState).1
      = [0, 0 + 1, 0 + 2, 0 + 3]) ∧
    (UsernameHunter.hunt_all_platforms_session false UsernameHunter.initState).1.Nodup ∧
    (UsernameHunter.hunt_all_platforms_session false UsernameHunter.initState).2.session = none ∧
    ((UsernameHunter.hunt_all_platforms_session false UsernameHunter.initState).1.Disjoint
      (UsernameHunter.hunt_all_platforms_session false
        (UsernameHunter.hunt_all_platforms_session false UsernameHunter.initState).2).1) :=
  C7_one_session_per_category_hunt UsernameHunter.initState rfl false false

/-- C9: for every identifier and transport behaviour, `hunt_all_platforms`
returns a mapping whose keys are exactly the category names of the
requested scope (the four fixed categories, plus `adult_platforms` when
requested), and a category hunt over an empty platform subset returns the
empty sequence — never a missing key or a null value (the mapping is total
by construction). -/
theorem C9_all_categories_present (username : String) (include_adult : Bool)
    (env : String → FetchOutcome) :
    ((UsernameHunter.hunt_all_platforms username include_adult env).map Prod.fst =
      if include_adult then
        ["general_sites", "developer_platforms", "forums", "gaming_platforms",
         "adult_platforms"]
      else
        ["general_sites", "developer_platforms", "forums", "gaming_platforms"]) ∧
    UsernameHunter.hunt_platforms username [] env = [] := by
  constructor
  · cases include_adult <;> simp [UsernameHunter.hunt_all_platforms]
  · rfl

/-- C10: for every email the Breach Directory placeholder record — whose own
`found` field is `False` — is unconditionally produced and appended to the
results, so `check_breaches` always reports at least one breach and a risk
level other than `Clean`, whatever the Have I Been Pwned probe did. -/
theorem C10_placeholder_counted_as_breach (email : String)
    (hibp_outcome : FetchOutcome) :
    1 ≤ (BreachChecker.check_breaches email hibp_outcome).total_breaches_found ∧
    (BreachChecker.check_breaches email hibp_outcome).risk_level ≠ "Clean" ∧
    (BreachChecker.check_breachdirectory email).map (fun result => result.found)
      = some false := by
  cases hc : BreachChecker.check_haveibeenpwned email hibp_outcome <;>
    simp [BreachChecker.check_breaches, hc, BreachChecker.check_breachdirectory,
      BreachChecker.generate_breach_report, BreachChecker.check_local_breach_files,
      BreachChecker.check_pastebins, BreachChecker.check_social_media_breaches]
